import Mathlib

/-!
Verification of the open-monitoring engine (backend/main.py and
backend/uptime_checker.py) against its natural-language specification.

The development shallowly embeds:
* the per-subdomain three-strike / flap-detection state machine
  (`update_subdomain_status_with_3strike` in backend/main.py),
* the geo-report ingestion endpoint (`receive_geo_report` in backend/main.py)
  over an explicit store (registry, check log, heartbeats), with the
  surrounding database transaction modelled as all-or-nothing,
* the prober `UptimeChecker.check_subdomain` (backend/uptime_checker.py),
* the platform fingerprinter `PlatformDetector.detect_platform`
  (backend/uptime_checker.py).

All definitions are computable so that concrete scenarios evaluate by `decide`.
-/

namespace OpenMonitoring

/-- Health status of a subdomain, as stored in `current_status`
(`NULL` in the database is coalesced to `UNKNOWN` by the code). -/
inductive Status where
  | UP
  | DOWN
  | FLAPPING
  | UNKNOWN
deriving DecidableEq, Repr

/-- The state-machine fields of one registry row
(`monitoring.subdomains`).  Counters are integers in the database, so they
are modelled as `Int` (non-negativity is an invariant, not a typing fact).
`last_status_change` is an abstract timestamp. -/
structure SubState where
  current_status : Status
  consecutive_up_count : Int
  consecutive_down_count : Int
  is_flapping : Bool
  last_status_change : Nat
deriving DecidableEq, Repr

/-- State of a freshly registered subdomain: discovery inserts only
`(domain, subdomain, discovered_at, active)`, so every state-machine column
is NULL and is read back as `UNKNOWN` / `0` / `false` by the
`or`-coalescing in `update_subdomain_status_with_3strike`. -/
def freshState : SubState :=
  { current_status := Status.UNKNOWN
    consecutive_up_count := 0
    consecutive_down_count := 0
    is_flapping := false
    last_status_change := 0 }

/-- `sum(1 for c in recent_checks if c['up'])`. -/
def countUps (l : List Bool) : Nat := (l.filter (fun b => b)).length

/-- One step of `update_subdomain_status_with_3strike` (backend/main.py,
lines 691-764), given the state read from the registry row and the
subdomain's check log (newest first) as it stands *after* the caller
inserted the new outcome; the `SELECT ... ORDER BY time DESC LIMIT 5`
read is `log.take 5`.  Returns the committed state together with the
`status_changed` flag the code computes (`last_status_change` is set to
`now` exactly when that flag is true). -/
def update_subdomain_status_with_3strike (s : SubState) (log : List Bool)
    (is_up : Bool) (now : Nat) : SubState × Bool :=
  let recent_checks := log.take 5
  let is_flapping :=
    if 5 ≤ recent_checks.length then
      decide (2 ≤ countUps recent_checks) && decide (countUps recent_checks ≤ 3)
    else s.is_flapping
  let consecutive_up := if is_up then s.consecutive_up_count + 1 else 0
  let consecutive_down := if is_up then 0 else s.consecutive_down_count + 1
  let new_status :=
    if is_flapping then Status.FLAPPING
    else if 3 ≤ consecutive_up then Status.UP
    else if 3 ≤ consecutive_down then Status.DOWN
    else s.current_status
  let status_changed :=
    if is_flapping then decide (s.current_status ≠ Status.FLAPPING)
    else if 3 ≤ consecutive_up then decide (s.current_status ≠ Status.UP)
    else if 3 ≤ consecutive_down then decide (s.current_status ≠ Status.DOWN)
    else false
  ({ current_status := new_status
     consecutive_up_count := consecutive_up
     consecutive_down_count := consecutive_down
     is_flapping := is_flapping
     last_status_change := if status_changed then now else s.last_status_change },
   status_changed)

/-- The per-subdomain states and check logs the system can actually persist:
start from a fresh registration with an empty check log, and on each new
outcome the ingest path first appends the outcome to the log and then runs
one step of the state machine on the post-insert log. -/
inductive Reachable : SubState → List Bool → Prop where
  | init : Reachable freshState []
  | step {s : SubState} {log : List Bool} (is_up : Bool) (now : Nat) :
      Reachable s log →
      Reachable (update_subdomain_status_with_3strike s (is_up :: log) is_up now).1
        (is_up :: log)


/-- Mutual exclusion of the two consecutive counters, as one invariant. -/
def CounterInv (s : SubState) : Prop :=
  0 ≤ s.consecutive_up_count ∧ 0 ≤ s.consecutive_down_count ∧
    ¬(0 < s.consecutive_up_count ∧ 0 < s.consecutive_down_count)

instance (s : SubState) : Decidable (CounterInv s) := by
  unfold CounterInv; infer_instance

/-- Fold a stream of outcomes (oldest first) through the ingest behaviour for
one subdomain: append the outcome to the check log, then run one step of
`update_subdomain_status_with_3strike` on the post-insert log.  Also counts
how many steps reported `status_changed` (i.e. how many times
`last_status_change` was advanced to `NOW()`); the abstract clock ticks once
per outcome. -/
def runFrom : SubState → List Bool → Nat → Nat → List Bool → SubState × List Bool × Nat
  | s, log, changes, _, [] => (s, log, changes)
  | s, log, changes, now, u :: rest =>
      let r := update_subdomain_status_with_3strike s (u :: log) u now
      runFrom r.1 (u :: log) (changes + if r.2 then 1 else 0) (now + 1) rest

/-- Apply a stream of outcomes to a freshly registered subdomain. -/
def runOutcomes (outs : List Bool) : SubState × List Bool × Nat :=
  runFrom freshState [] 0 1 outs

/-- One row of `monitoring.uptime_checks` as inserted by the geo-report
path (its `platform` column is always NULL there). -/
structure CheckRec where
  time : Nat
  subdomain : String
  status_code : Option Int
  response_time_ms : Option Int
  up : Bool
  platform : Option String
  error_message : Option String
  location : String
deriving DecidableEq, Repr

/-- One row of `monitoring.agent_heartbeats`. -/
structure Heartbeat where
  last_seen : Nat
  status : String
deriving DecidableEq, Repr

/-- The parts of the database the ingest endpoint touches: the subdomain
registry (keyed by host name), the append-only check log (newest insert
first; agent timestamps arrive in increasing order, so insertion order
agrees with `ORDER BY time DESC`), and the per-location heartbeats. -/
structure Store where
  subdomains : List (String × SubState)
  checks : List CheckRec
  heartbeats : List (String × Heartbeat)
deriving DecidableEq, Repr

/-- Registry lookup (`SELECT ... FROM monitoring.subdomains WHERE subdomain = $1`). -/
def lookupSub (reg : List (String × SubState)) (sub : String) : Option SubState :=
  (reg.find? (fun p => p.1 = sub)).map (fun p => p.2)

/-- Registry row update (`UPDATE monitoring.subdomains ... WHERE subdomain = $6`). -/
def setSub (reg : List (String × SubState)) (sub : String) (s : SubState) :
    List (String × SubState) :=
  reg.map (fun p => if p.1 = sub then (p.1, s) else p)

/-- `SELECT up FROM monitoring.uptime_checks WHERE subdomain = $1 ORDER BY time DESC LIMIT 5`. -/
def recentChecks (st : Store) (sub : String) : List Bool :=
  ((st.checks.filter (fun c => c.subdomain = sub)).map (fun c => c.up)).take 5

/-- `update_subdomain_status_with_3strike` as run against the store: if the
subdomain is absent from the registry the function returns without touching
anything (`if not row: return`); otherwise it commits the stepped state. -/
def update3strikeStore (st : Store) (sub : String) (is_up : Bool) (now : Nat) : Store :=
  match lookupSub st.subdomains sub with
  | none => st
  | some s =>
      let r := update_subdomain_status_with_3strike s (recentChecks st sub) is_up now
      { st with subdomains := setSub st.subdomains sub r.1 }

/-- One entry of the report's `results` list, before field validation.
`none` in a field models a missing key (a `KeyError` on access); a `none`
timestamp also covers an unparseable ISO string (`ValueError` in
`datetime.fromisoformat`).  `status_code` / `response_time_ms` may be
present and null, hence the nested `Option`.  `error` is read with `.get`
and so never fails. -/
structure RawResult where
  subdomain : Option String
  timestamp : Option Nat
  status_code : Option (Option Int)
  response_time_ms : Option (Option Int)
  up : Option Bool
  error : Option String
deriving DecidableEq, Repr

/-- Field access that raises inside the transaction on a missing value. -/
def require {α : Type} (msg : String) : Option α → Except String α
  | some a => Except.ok a
  | none => Except.error msg

/-- Process one result inside the transaction: insert the uptime check
(platform NULL, tagged with the report's location), then run the three-strike
update for that subdomain. -/
def processResult (st : Store) (location : String) (now : Nat) (r : RawResult) :
    Except String Store := do
  let t ← require "invalid result timestamp" r.timestamp
  let sub ← require "missing subdomain" r.subdomain
  let sc ← require "missing status_code" r.status_code
  let rt ← require "missing response_time_ms" r.response_time_ms
  let u ← require "missing up" r.up
  let st1 : Store := { st with checks := ⟨t, sub, sc, rt, u, none, r.error, location⟩ :: st.checks }
  Except.ok (update3strikeStore st1 sub u now)

/-- Process the whole `results` list in order; the first failure aborts. -/
def processResults (st : Store) (location : String) (now : Nat) :
    List RawResult → Except String Store
  | [] => Except.ok st
  | r :: rest => do
      let st1 ← processResult st location now r
      processResults st1 location now rest

/-- Heartbeat upsert (`INSERT ... ON CONFLICT (location) DO UPDATE SET
last_seen = NOW(), status = 'active'`). -/
def touchHeartbeat (st : Store) (location : String) (now : Nat) : Store :=
  { st with heartbeats :=
      (location, ⟨now, "active"⟩) :: st.heartbeats.filter (fun p => !(p.1 = location)) }

/-- Heartbeat lookup by location. -/
def lookupHeartbeat (hbs : List (String × Heartbeat)) (location : String) : Option Heartbeat :=
  (hbs.find? (fun p => p.1 = location)).map (fun p => p.2)

/-- ASCII-case canonicalization (`str.upper()` in the code), written as a
structural map so that concrete instances reduce. -/
def strUpper (s : String) : String := String.mk (s.data.map Char.toUpper)

/-- ASCII lowercasing (`str.lower()` in the code). -/
def strLower (s : String) : String := String.mk (s.data.map Char.toLower)

/-- The response bodies `receive_geo_report` can produce. -/
inductive GeoResponse where
  | rejected (location : String)
  | success (received : Nat)
  | error (message : String)
deriving DecidableEq, Repr

/-- `location not in ['EU', 'PH', 'SG']` rejects the report. -/
def allowedLocations : List String := ["EU", "PH", "SG"]

/-- The `/api/geo-report` endpoint (backend/main.py 766-817).  The location
is read with default `"UNKNOWN"` and uppercased; unknown locations are
rejected before any store access.  Accepted reports run the heartbeat
upsert and all per-result work inside one transaction (`conn.transaction()`):
an exception rolls every mutation back and the endpoint answers with an
error body, leaving the store as it was. -/
def receive_geo_report (st : Store) (report_location : Option String)
    (results : List RawResult) (now : Nat) : Store × GeoResponse :=
  let location := strUpper (report_location.getD "UNKNOWN")
  if location ∈ allowedLocations then
    match processResults (touchHeartbeat st location now) location now results with
    | Except.ok st1 => (st1, GeoResponse.success results.length)
    | Except.error e => (st, GeoResponse.error e)
  else
    (st, GeoResponse.rejected location)

/-- The empty store, and a small store with one registered host, used as
concrete scenarios. -/
def emptyStore : Store := ⟨[], [], []⟩

def sampleStore : Store := ⟨[("portal.bettergov.ph", freshState)], [], []⟩

def goodResult : RawResult :=
  ⟨some "portal.bettergov.ph", some 1, some (some 200), some (some 50), some true, none⟩

def badResult : RawResult :=
  ⟨some "portal.bettergov.ph", none, some (some 200), some (some 50), some true, none⟩

/-! ## Platform fingerprinting (`PlatformDetector.detect_platform`,
backend/uptime_checker.py 22-205) -/

/-- Python substring containment `needle in hay` on character lists. -/
def listContainsSub (needle : List Char) : List Char → Bool
  | [] => needle.isEmpty
  | c :: t => needle.isPrefixOf (c :: t) || listContainsSub needle t

/-- Python's `needle in hay` for strings. -/
def containsSub (hay needle : String) : Bool := listContainsSub needle.data hay.data

/-- A character matched by the regex class `[\d.]`. -/
def isVerChar (c : Char) : Bool := c.isDigit || c == '.'

/-- `re.search(r'<pat>([\d.]+)', s)` for a literal pattern `pat`: find the
first position where `pat` matches and is followed by at least one
digit-or-dot, and return that (greedy) run. -/
def verSearch (pat : List Char) : List Char → Option String
  | [] => none
  | c :: t =>
      if pat.isPrefixOf (c :: t) then
        let run := ((c :: t).drop pat.length).takeWhile isVerChar
        if run.isEmpty then verSearch pat t else some (String.mk run)
      else verSearch pat t

/-- `f" {version_match.group(1)}" if version_match else ""`. -/
def versionTag (pat raw : String) : String :=
  match verSearch pat.data raw.data with
  | some v => " " ++ v
  | none => ""

/-- Lookup in the canonicalized header dict
`{k.lower(): v for k, v in headers.items()}`: the *last* entry whose
lowercased name equals `key` wins, as in the Python dict comprehension. -/
def canonGet (headers : List (String × String)) (key : String) : Option String :=
  (headers.reverse.find? (fun p => strLower p.1 = key)).map (fun p => p.2)

/-- `key in headers` after canonicalization. -/
def hmem (headers : List (String × String)) (key : String) : Bool :=
  (canonGet headers key).isSome

/-- `headers.get(key, dflt)` after canonicalization. -/
def hget (headers : List (String × String)) (key : String) (dflt : String) : String :=
  (canonGet headers key).getD dflt

/-- The body-content sniffing block (`if response_text:` onwards); falls out
to `'Unknown'`.  Python's truthiness makes the empty body skip the block. -/
def bodySniff (response_text : String) : String :=
  if response_text = "" then "Unknown"
  else if containsSub response_text "wp-content" || containsSub response_text "wp-includes"
      || containsSub response_text "wp-json" then "WordPress"
  else if containsSub (strLower response_text) "drupal" then "Drupal"
  else if containsSub (strLower response_text) "joomla" then "Joomla"
  else if containsSub (strLower response_text) "magento" then "Magento"
  else if containsSub (strLower response_text) "shopify" then "Shopify"
  else if containsSub (strLower response_text) "squarespace" then "Squarespace"
  else if containsSub (strLower response_text) "wix" then "Wix"
  else if containsSub (strLower response_text) "weebly" then "Weebly"
  else if containsSub (strLower response_text) "jekyll" then "Jekyll"
  else if containsSub (strLower response_text) "hugo" then "Hugo"
  else if containsSub (strLower response_text) "gatsby" then "Gatsby"
  else if containsSub (strLower response_text) "eleventy"
      || containsSub (strLower response_text) "11ty" then "Eleventy"
  else if containsSub (strLower response_text) "react"
      && containsSub (strLower response_text) "data-reactroot" then "React"
  else if containsSub (strLower response_text) "vue"
      && containsSub response_text "data-v-" then "Vue.js"
  else if containsSub (strLower response_text) "angular" then "Angular"
  else "Unknown"

/-- `PlatformDetector.detect_platform(headers, response_text)`.  The chain
mirrors the source: Cloudflare headers, then the `Server` header (with
case-sensitive version extraction from the raw value), then `X-Powered-By`,
then the CDN/hosting header table (whose `x-xss-protection` /
`x-content-type-options` arm is a `pass` that skips the remaining header
arms), then body sniffing, else `'Unknown'`.  The two literally duplicated
Fastly/Akamai arms of the source are dead and collapse to one each. -/
def detect_platform (headers : List (String × String)) (response_text : String) : String :=
  if hmem headers "cf-ray" || hmem headers "cf-cache-status"
      || hmem headers "cf-request-id" then "Cloudflare"
  else
    let server := strLower (hget headers "server" "")
    let raw_server := hget headers "server" ""
    if containsSub server "nginx" then "Nginx" ++ versionTag "nginx/" raw_server
    else if containsSub server "apache" then "Apache" ++ versionTag "apache/" raw_server
    else if containsSub server "iis" || containsSub server "microsoft-iis" then
      "IIS" ++ versionTag "microsoft-iis/" raw_server
    else if containsSub server "lighttpd" then "Lighttpd" ++ versionTag "lighttpd/" raw_server
    else if containsSub server "caddy" then "Caddy" ++ versionTag "caddy/" raw_server
    else if containsSub server "node.js" || containsSub server "express" then "Node.js"
    else if containsSub server "gunicorn" then "Gunicorn" ++ versionTag "gunicorn/" raw_server
    else if containsSub server "uwsgi" then "uWSGI"
    else if containsSub server "uvicorn" then "Uvicorn" ++ versionTag "uvicorn/" raw_server
    else if containsSub server "hypercorn" then "Hypercorn"
    else if containsSub server "daphne" then "Daphne"
    else if containsSub server "tomcat" then "Tomcat" ++ versionTag "tomcat/" raw_server
    else if containsSub server "jetty" then "Jetty" ++ versionTag "jetty/" raw_server
    else
      let powered_by := strLower (hget headers "x-powered-by" "")
      let raw_powered := hget headers "x-powered-by" ""
      if containsSub powered_by "php" then "PHP" ++ versionTag "php/" raw_powered
      else if containsSub powered_by "asp.net" then "ASP.NET"
      else if containsSub powered_by "django" then "Django" ++ versionTag "django/" raw_powered
      else if containsSub powered_by "flask" then "Flask"
      else if containsSub powered_by "fastapi" then "FastAPI"
      else if containsSub powered_by "express" then "Express.js"
      else if containsSub powered_by "rails" then "Ruby on Rails"
      else if containsSub powered_by "laravel" then "Laravel"
      else if containsSub powered_by "symfony" then "Symfony"
      else if containsSub powered_by "spring" then "Spring Boot"
      else if containsSub powered_by "next.js" then "Next.js"
      else if containsSub powered_by "nuxt" then "Nuxt.js"
      else if hmem headers "x-amz-cf-id" then "CloudFront (AWS)"
      else if hmem headers "cf-ray" then "Cloudflare"
      else if hmem headers "x-vercel-id" then "Vercel"
      else if hmem headers "x-netlify" then "Netlify"
      else if hmem headers "x-github-request-id" then "GitHub Pages"
      else if hmem headers "x-render-id" then "Render"
      else if hmem headers "x-fly-request-id" then "Fly.io"
      else if hmem headers "x-railway-static-url" then "Railway"
      else if hmem headers "x-replit-user-name" then "Replit"
      else if hmem headers "x-glitch-request-id" then "Glitch"
      else if hmem headers "x-surge-id" then "Surge.sh"
      else if hmem headers "x-fastly-request-id" then "Fastly"
      else if hmem headers "x-akamai-transformed" then "Akamai"
      else if hmem headers "x-varnish" then "Varnish"
      else if hmem headers "x-squid-error" then "Squid"
      else if hmem headers "x-keycdn-request-id" then "KeyCDN"
      else if hmem headers "x-cdn"
          && containsSub (strLower (hget headers "x-cdn" "")) "stackpath" then "StackPath"
      else if hmem headers "x-xss-protection" || hmem headers "x-content-type-options" then
        bodySniff response_text
      else if hmem headers "x-dost-gov-ph" || containsSub (strLower server) "gov.ph" then
        "Philippine Government"
      else if hmem headers "x-bettergov" then "BetterGov Platform"
      else bodySniff response_text

/-- Every canonicalized header name that occurs in some condition of
`detect_platform`.  A header whose lowercased name is outside this list can
influence no branch. -/
def recognizedHeaderKeys : List String :=
  ["cf-ray", "cf-cache-status", "cf-request-id", "server", "x-powered-by",
   "x-amz-cf-id", "x-vercel-id", "x-netlify", "x-github-request-id",
   "x-render-id", "x-fly-request-id", "x-railway-static-url",
   "x-replit-user-name", "x-glitch-request-id", "x-surge-id",
   "x-fastly-request-id", "x-akamai-transformed", "x-varnish",
   "x-squid-error", "x-keycdn-request-id", "x-cdn", "x-xss-protection",
   "x-content-type-options", "x-dost-gov-ph", "x-bettergov"]

/-! ## Prober (`UptimeChecker.check_subdomain`, backend/uptime_checker.py 242-294) -/

/-- What one `session.get(f"{protocol}://{subdomain}")` attempt can do:
deliver an HTTP response (whose body is `none` when `response.text()`
raises, in which case platform detection runs on headers alone), raise
`aiohttp.ClientConnectorError`, raise `asyncio.TimeoutError`, or raise some
other exception. -/
inductive AttemptOutcome where
  | response (status : Int) (headers : List (String × String)) (body : Option String)
  | connError (message : String)
  | timeoutErr
  | otherError (message : String)

/-- `text[:10240]`. -/
def strTake (s : String) (n : Nat) : String := String.mk (s.data.take n)

/-- The `result` dict built by `check_subdomain`. -/
structure ProbeResult where
  subdomain : String
  up : Bool
  status_code : Option Int
  response_time_ms : Option Nat
  platform : String
  error_message : Option String
  headers : List (String × String)
deriving DecidableEq, Repr

/-- The initial `result` dict of `check_subdomain`. -/
def initResult (subdomain : String) : ProbeResult :=
  ⟨subdomain, false, none, none, "Unknown", none, []⟩

/-- One iteration of the `for protocol in ['https', 'http']` loop: a
response fills the result and breaks (second component `true`); an
exception stores its classified message and lets the loop continue. -/
def tryProtocol (r : ProbeResult) (out : AttemptOutcome) (elapsed_ms : Nat) :
    ProbeResult × Bool :=
  match out with
  | AttemptOutcome.response status headers body =>
      ({ r with
          status_code := some status
          response_time_ms := some elapsed_ms
          up := decide (status < 500)
          headers := headers
          platform :=
            match body with
            | some text => detect_platform headers (strTake text 10240)
            | none => detect_platform headers "" }, true)
  | AttemptOutcome.connError m =>
      ({ r with error_message := some ("Connection failed: " ++ m) }, false)
  | AttemptOutcome.timeoutErr =>
      ({ r with error_message := some "Timeout" }, false)
  | AttemptOutcome.otherError m =>
      ({ r with error_message := some ("Error: " ++ m) }, false)

/-- `UptimeChecker.check_subdomain`: try `https` then `http`; the first
response wins, and a failed attempt's message may be overwritten by the
later attempt. `attempt`/`elapsed_ms` describe what the network does for
each protocol. -/
def check_subdomain (subdomain : String) (attempt : String → AttemptOutcome)
    (elapsed_ms : String → Nat) : ProbeResult :=
  let r0 := initResult subdomain
  let t1 := tryProtocol r0 (attempt "https") (elapsed_ms "https")
  if t1.2 then t1.1
  else (tryProtocol t1.1 (attempt "http") (elapsed_ms "http")).1

/-! ## Theorems -/

/-- Projection: the flapping flag committed by one step. -/
theorem step_is_flapping (s : SubState) (log : List Bool) (is_up : Bool) (now : Nat) :
    ((update_subdomain_status_with_3strike s log is_up now).1).is_flapping =
      (if 5 ≤ (log.take 5).length then
        decide (2 ≤ countUps (log.take 5)) && decide (countUps (log.take 5) ≤ 3)
      else s.is_flapping) := rfl

/-- Projection: the counter `consecutive_up_count` committed by one step. -/
theorem step_up_count (s : SubState) (log : List Bool) (is_up : Bool) (now : Nat) :
    ((update_subdomain_status_with_3strike s log is_up now).1).consecutive_up_count =
      (if is_up then s.consecutive_up_count + 1 else 0) := rfl

/-- Projection: the counter `consecutive_down_count` committed by one step. -/
theorem step_down_count (s : SubState) (log : List Bool) (is_up : Bool) (now : Nat) :
    ((update_subdomain_status_with_3strike s log is_up now).1).consecutive_down_count =
      (if is_up then 0 else s.consecutive_down_count + 1) := rfl

/-- Projection: the status committed by one step, in terms of the inputs. -/
theorem step_status_raw (s : SubState) (log : List Bool) (is_up : Bool) (now : Nat) :
    ((update_subdomain_status_with_3strike s log is_up now).1).current_status =
      (if (if 5 ≤ (log.take 5).length then
            decide (2 ≤ countUps (log.take 5)) && decide (countUps (log.take 5) ≤ 3)
          else s.is_flapping) = true then Status.FLAPPING
      else if 3 ≤ (if is_up then s.consecutive_up_count + 1 else 0) then Status.UP
      else if 3 ≤ (if is_up then (0 : Int) else s.consecutive_down_count + 1) then Status.DOWN
      else s.current_status) := rfl

/-- Projection: the status committed by one step, phrased by the
classification cascade on the committed record itself. -/
theorem step_status (s : SubState) (log : List Bool) (is_up : Bool) (now : Nat) :
    ((update_subdomain_status_with_3strike s log is_up now).1).current_status =
      (if ((update_subdomain_status_with_3strike s log is_up now).1).is_flapping = true then
        Status.FLAPPING
      else if 3 ≤ ((update_subdomain_status_with_3strike s log is_up now).1).consecutive_up_count then
        Status.UP
      else if 3 ≤ ((update_subdomain_status_with_3strike s log is_up now).1).consecutive_down_count then
        Status.DOWN
      else s.current_status) := by
  rw [step_status_raw, step_is_flapping, step_up_count, step_down_count]

/-- In every reachable configuration, a raised flapping flag certifies that
the check log already holds at least five outcomes (the code only ever sets
the flag on a five-outcome window, and the log is append-only). -/
theorem reachable_flapping_log_length {s : SubState} {log : List Bool}
    (h : Reachable s log) : s.is_flapping = true → 5 ≤ log.length := by
  induction h with
  | init => intro h; simp [freshState] at h
  | @step s log is_up now hr ih =>
      intro hf
      rw [step_is_flapping] at hf
      simp only [List.length_cons]
      by_cases hlen : 5 ≤ ((is_up :: log).take 5).length
      · simp only [List.length_take, List.length_cons] at hlen
        omega
      · rw [if_neg hlen] at hf
        have h5 := ih hf
        omega

/-- One step establishes the counter invariant from the counter invariant:
whichever branch runs, it zeroes the opposite counter. -/
theorem counterInv_step (s : SubState) (log : List Bool) (is_up : Bool) (now : Nat)
    (hs : CounterInv s) :
    CounterInv (update_subdomain_status_with_3strike s log is_up now).1 := by
  obtain ⟨h1, h2, -⟩ := hs
  unfold CounterInv
  rw [step_up_count, step_down_count]
  cases is_up <;> simp <;> omega

/-- The counter invariant holds in every reachable configuration. -/
theorem counterInv_reachable {s : SubState} {log : List Bool}
    (h : Reachable s log) : CounterInv s := by
  induction h with
  | init => exact ⟨le_refl 0, le_refl 0, by simp [freshState]⟩
  | @step s log is_up now hr ih => exact counterInv_step s (is_up :: log) is_up now ih


/-- C1: one step of the state machine from any persisted (reachable)
configuration commits `is_flapping = true` exactly when at least five
outcomes exist and the number of ups among the last five (inclusive of the
just-inserted outcome) is 2 or 3, and commits the status `FLAPPING` when
flapping, else `UP` on three consecutive ups, else `DOWN` on three
consecutive downs, else the previous `current_status`. -/
theorem three_strike_step_spec (s : SubState) (log : List Bool)
    (h : Reachable s log) (is_up : Bool) (now : Nat) :
    (((update_subdomain_status_with_3strike s (is_up :: log) is_up now).1).is_flapping = true ↔
      (5 ≤ (is_up :: log).length ∧
        (countUps ((is_up :: log).take 5) = 2 ∨ countUps ((is_up :: log).take 5) = 3))) ∧
    ((update_subdomain_status_with_3strike s (is_up :: log) is_up now).1).current_status =
      (if ((update_subdomain_status_with_3strike s (is_up :: log) is_up now).1).is_flapping = true
        then Status.FLAPPING
      else if 3 ≤ ((update_subdomain_status_with_3strike s (is_up :: log) is_up now).1).consecutive_up_count
        then Status.UP
      else if 3 ≤ ((update_subdomain_status_with_3strike s (is_up :: log) is_up now).1).consecutive_down_count
        then Status.DOWN
      else s.current_status) := by
  refine ⟨?_, step_status s (is_up :: log) is_up now⟩
  rw [step_is_flapping]
  by_cases hlen : 5 ≤ ((is_up :: log).take 5).length
  · rw [if_pos hlen]
    simp only [List.length_take, List.length_cons] at hlen
    simp only [Bool.and_eq_true, decide_eq_true_eq, List.length_cons]
    constructor
    · rintro ⟨h2, h3⟩
      exact ⟨by omega, by omega⟩
    · rintro ⟨-, h23⟩
      constructor <;> omega
  · rw [if_neg hlen]
    simp only [List.length_take, List.length_cons] at hlen
    constructor
    · intro hf
      exact absurd (reachable_flapping_log_length h hf) (by omega)
    · rintro ⟨h5, -⟩
      simp only [List.length_cons] at h5
      omega

/-- Witness for C1 at a concrete reachable configuration: the fresh state
with its first (up) outcome is not flapping and keeps status `UNKNOWN`. -/
theorem three_strike_step_spec_witness :
    ((update_subdomain_status_with_3strike freshState [true] true 1).1).current_status =
      Status.UNKNOWN ∧
    ¬(5 ≤ ([true] : List Bool).length ∧
      (countUps (([true] : List Bool).take 5) = 2 ∨ countUps (([true] : List Bool).take 5) = 3)) := by
  have h := three_strike_step_spec freshState [] Reachable.init true 1
  exact ⟨h.2.trans (by decide), by decide⟩

/-- C3: in every configuration reachable from a fresh registration both
consecutive counters are non-negative and never both strictly positive, and
one step of the state machine preserves this invariant from any state
satisfying it. -/
theorem counters_mutually_exclusive :
    (∀ (s : SubState) (log : List Bool), Reachable s log →
      0 ≤ s.consecutive_up_count ∧ 0 ≤ s.consecutive_down_count ∧
        ¬(0 < s.consecutive_up_count ∧ 0 < s.consecutive_down_count)) ∧
    (∀ (s : SubState) (log : List Bool) (is_up : Bool) (now : Nat),
      (0 ≤ s.consecutive_up_count ∧ 0 ≤ s.consecutive_down_count ∧
        ¬(0 < s.consecutive_up_count ∧ 0 < s.consecutive_down_count)) →
      0 ≤ ((update_subdomain_status_with_3strike s log is_up now).1).consecutive_up_count ∧
      0 ≤ ((update_subdomain_status_with_3strike s log is_up now).1).consecutive_down_count ∧
        ¬(0 < ((update_subdomain_status_with_3strike s log is_up now).1).consecutive_up_count ∧
          0 < ((update_subdomain_status_with_3strike s log is_up now).1).consecutive_down_count)) :=
  ⟨fun _ _ h => counterInv_reachable h,
   fun s log is_up now hs => counterInv_step s log is_up now hs⟩

/-- Witness for C3: the invariant holds in the fresh configuration and after
one concrete step. -/
theorem counters_mutually_exclusive_witness :
    (0 ≤ freshState.consecutive_up_count ∧ 0 ≤ freshState.consecutive_down_count ∧
      ¬(0 < freshState.consecutive_up_count ∧ 0 < freshState.consecutive_down_count)) ∧
    ¬(0 < ((update_subdomain_status_with_3strike freshState [true] true 1).1).consecutive_up_count ∧
      0 < ((update_subdomain_status_with_3strike freshState [true] true 1).1).consecutive_down_count) :=
  ⟨counters_mutually_exclusive.1 freshState [] Reachable.init,
   (counters_mutually_exclusive.2 freshState [true] true 1 (by decide)).2.2⟩

/-- C2 fails on the code: the stream `D, D, D, U, U, U` from a fresh
subdomain ends in `FLAPPING` with `is_flapping = true` (at the fifth outcome
the five-outcome window `U,U,D,D,D` has 2 ups and at the sixth `U,U,U,D,D`
has 3 ups), not in `UP` with `is_flapping = false`. -/
theorem scenario_S5_counterexample :
    ¬((runOutcomes [false, false, false, true, true, true]).1.current_status = Status.UP ∧
      (runOutcomes [false, false, false, true, true, true]).1.is_flapping = false) := by
  decide

/-- C2 (amended): the stream `D, D, D, U, U, U` from a fresh subdomain ends
with `current_status = FLAPPING` and `is_flapping = true`, and
`last_status_change` was advanced exactly twice over the run
(`UNKNOWN → DOWN` at the third outcome and `DOWN → FLAPPING` at the fifth). -/
theorem scenario_S5_on_code :
    (runOutcomes [false, false, false, true, true, true]).1.current_status = Status.FLAPPING ∧
    (runOutcomes [false, false, false, true, true, true]).1.is_flapping = true ∧
    (runOutcomes [false, false, false, true, true, true]).2.2 = 2 := by
  decide

/-! ## Geo-report ingestion (`receive_geo_report`, backend/main.py 766-817) -/

/-- C5: a report whose uppercased location is not in `{EU, PH, SG}` gets the
structured rejection and the store is untouched — no heartbeat upsert, no
check insert, no state-machine commit — whatever its results are. -/
theorem geo_report_unknown_location_no_mutation (st : Store) (loc : Option String)
    (results : List RawResult) (now : Nat)
    (h : (strUpper (loc.getD "UNKNOWN")) ∉ allowedLocations) :
    receive_geo_report st loc results now =
      (st, GeoResponse.rejected (strUpper (loc.getD "UNKNOWN"))) := by
  simp only [receive_geo_report, if_neg h]

/-- Witness for C5: a report from `"US"` with a well-formed result is
rejected and the store comes back unchanged. -/
theorem geo_report_unknown_location_no_mutation_witness :
    receive_geo_report sampleStore (some "US") [goodResult] 3 =
      (sampleStore, GeoResponse.rejected "US") :=
  geo_report_unknown_location_no_mutation sampleStore (some "US") [goodResult] 3 (by decide)

/-- C6: every mutation of an accepted report happens inside one transaction:
whenever the endpoint answers with an error, the store is exactly as it was
before the report (heartbeat upsert and all check/state work rolled back). -/
theorem geo_report_transaction_atomic (st : Store) (loc : Option String)
    (results : List RawResult) (now : Nat) (e : String)
    (h : (receive_geo_report st loc results now).2 = GeoResponse.error e) :
    (receive_geo_report st loc results now).1 = st := by
  by_cases hloc : (strUpper (loc.getD "UNKNOWN")) ∈ allowedLocations
  · simp only [receive_geo_report, if_pos hloc] at h ⊢
    cases hm : processResults (touchHeartbeat st (strUpper (loc.getD "UNKNOWN")) now)
        (strUpper (loc.getD "UNKNOWN")) now results with
    | ok st1 => rw [hm] at h; simp at h
    | error e2 => rfl
  · simp only [receive_geo_report, if_neg hloc] at h
    simp at h

/-- Witness for C6: a batch whose first result is fine and whose second has
an unusable timestamp fails as a whole, and the first result's check insert
and state-machine commit are rolled back with it. -/
theorem geo_report_transaction_atomic_witness :
    (receive_geo_report sampleStore (some "EU") [goodResult, badResult] 7).1 = sampleStore :=
  geo_report_transaction_atomic sampleStore (some "EU") [goodResult, badResult] 7
    "invalid result timestamp" (by decide)

/-- C10: an allowed location with an empty results list is accepted with
`received = 0`, and the heartbeat for that location is still upserted with
`last_seen = now` and status `active`. -/
theorem geo_report_empty_results_heartbeat (st : Store) (loc : Option String) (now : Nat)
    (h : (strUpper (loc.getD "UNKNOWN")) ∈ allowedLocations) :
    receive_geo_report st loc [] now =
      (touchHeartbeat st (strUpper (loc.getD "UNKNOWN")) now, GeoResponse.success 0) ∧
    lookupHeartbeat ((receive_geo_report st loc [] now).1).heartbeats
        (strUpper (loc.getD "UNKNOWN")) = some ⟨now, "active"⟩ := by
  have h1 : receive_geo_report st loc [] now =
      (touchHeartbeat st (strUpper (loc.getD "UNKNOWN")) now, GeoResponse.success 0) := by
    simp only [receive_geo_report, if_pos h, processResults, List.length_nil]
  refine ⟨h1, ?_⟩
  rw [h1]
  simp [touchHeartbeat, lookupHeartbeat]

/-- Witness for C10: a lowercase `"sg"` report with no results marks agent
`SG` active at the current time. -/
theorem geo_report_empty_results_heartbeat_witness :
    receive_geo_report sampleStore (some "sg") [] 9 =
      (touchHeartbeat sampleStore "SG" 9, GeoResponse.success 0) ∧
    lookupHeartbeat ((receive_geo_report sampleStore (some "sg") [] 9).1).heartbeats "SG" =
      some ⟨9, "active"⟩ :=
  geo_report_empty_results_heartbeat sampleStore (some "sg") 9 (by decide)

/-- C4 fails on the code: a valid result for a host absent from the registry
is accepted, its check record is persisted, and the host is *not* registered
— the record is neither dropped nor accompanied by a lazy registration; only
the state-machine update is skipped. -/
theorem geo_unregistered_persisted_counterexample :
    (receive_geo_report emptyStore (some "EU")
        [⟨some "ghost.bettergov.ph", some 1, some (some 200), some (some 50), some true, none⟩]
        2).2 = GeoResponse.success 1 ∧
    (((receive_geo_report emptyStore (some "EU")
        [⟨some "ghost.bettergov.ph", some 1, some (some 200), some (some 50), some true, none⟩]
        2).1).checks.map (fun c => c.subdomain)) = ["ghost.bettergov.ph"] ∧
    lookupSub ((receive_geo_report emptyStore (some "EU")
        [⟨some "ghost.bettergov.ph", some 1, some (some 200), some (some 50), some true, none⟩]
        2).1).subdomains "ghost.bettergov.ph" = none := by
  decide

/-- C4 (amended): for a result whose subdomain is absent from the registry,
the ingest path persists the check record anyway and leaves the registry
untouched (no lazy registration, no drop); the state-machine commit alone is
skipped. -/
theorem geo_unregistered_insert_skip_state (st : Store) (location : String) (now : Nat)
    (sub : String) (t : Nat) (sc rt : Option Int) (u : Bool) (err : Option String)
    (habs : lookupSub st.subdomains sub = none) :
    processResult st location now ⟨some sub, some t, some sc, some rt, some u, err⟩ =
      Except.ok { st with checks := ⟨t, sub, sc, rt, u, none, err, location⟩ :: st.checks } := by
  simp only [processResult, require, bind, Except.bind]
  simp [update3strikeStore, habs]

/-- Witness for C4 (amended): a concrete unregistered host gets its check
persisted while the (empty) registry stays empty. -/
theorem geo_unregistered_insert_skip_state_witness :
    processResult emptyStore "EU" 2
        ⟨some "ghost.bettergov.ph", some 1, some (some 200), some (some 50), some true, none⟩ =
      Except.ok { emptyStore with
        checks := [⟨1, "ghost.bettergov.ph", some 200, some 50, true, none, none, "EU"⟩] } :=
  geo_unregistered_insert_skip_state emptyStore "EU" 2 "ghost.bettergov.ph" 1
    (some 200) (some 50) true none (by decide)

/-! ## Fingerprinter and prober theorems -/

/-- Appending one header entry only changes canonical lookups at its own
lowercased name (the Python dict comprehension lets the later entry win). -/
theorem canonGet_snoc (H : List (String × String)) (k v key : String) :
    canonGet (H ++ [(k, v)]) key =
      if strLower k = key then some v else canonGet H key := by
  by_cases hk : strLower k = key
  · simp [canonGet, List.reverse_append, List.find?_cons, hk]
  · simp [canonGet, List.reverse_append, List.find?_cons, hk]

/-- Adding a header whose lowercased name occurs in no condition of
`detect_platform` never changes the label (with any body). -/
theorem detect_platform_snoc_unrecognized (H : List (String × String)) (rt k v : String)
    (hk : strLower k ∉ recognizedHeaderKeys) :
    detect_platform (H ++ [(k, v)]) rt = detect_platform H rt := by
  simp only [recognizedHeaderKeys, List.mem_cons, List.not_mem_nil, or_false, not_or] at hk
  obtain ⟨k1, k2, k3, k4, k5, k6, k7, k8, k9, k10, k11, k12, k13, k14, k15, k16, k17,
    k18, k19, k20, k21, k22, k23, k24, k25⟩ := hk
  simp only [detect_platform, hmem, hget, canonGet_snoc, k1, k2, k3, k4, k5, k6, k7, k8,
    k9, k10, k11, k12, k13, k14, k15, k16, k17, k18, k19, k20, k21, k22, k23, k24, k25,
    if_false]

/-- C9: `detect_platform` is deterministic (equal header/body inputs give
the equal label), and for inputs yielding a non-`Unknown` label, adding a
header unrelated to every recognition rule (its lowercased name occurs in
no condition of the function) leaves the label unchanged. -/
theorem detect_platform_deterministic_stable :
    (∀ (h1 h2 : List (String × String)) (b1 b2 : String),
      h1 = h2 → b1 = b2 → detect_platform h1 b1 = detect_platform h2 b2) ∧
    (∀ (headers : List (String × String)) (body k v : String),
      detect_platform headers body ≠ "Unknown" →
      strLower k ∉ recognizedHeaderKeys →
      detect_platform (headers ++ [(k, v)]) body = detect_platform headers body) :=
  ⟨fun _ _ _ _ hh hb => by rw [hh, hb],
   fun headers body k v _ hk => detect_platform_snoc_unrecognized headers body k v hk⟩

/-- Witness for C9: the spec's nginx scenario keeps its label
`Nginx 1.21.6` when an unrelated tracing header is added. -/
theorem detect_platform_deterministic_stable_witness :
    detect_platform [("Server", "nginx/1.21.6")] "" =
      detect_platform [("Server", "nginx/1.21.6")] "" ∧
    detect_platform ([("Server", "nginx/1.21.6")] ++ [("x-request-trace", "1")]) "" =
      detect_platform [("Server", "nginx/1.21.6")] "" :=
  ⟨detect_platform_deterministic_stable.1 _ _ _ _ rfl rfl,
   detect_platform_deterministic_stable.2 [("Server", "nginx/1.21.6")] ""
     "x-request-trace" "1" (by decide) (by decide)⟩

/-- C7: whenever a probe records a status code (i.e. an HTTP response was
received on some protocol), `up` is exactly `status < 500`; hence an `up`
result always carries a non-null status code below 500 (so every 4xx
response yields `up = true`). -/
theorem probe_up_iff_status_lt_500 (subdomain : String)
    (attempt : String → AttemptOutcome) (elapsed_ms : String → Nat) :
    (∀ c, (check_subdomain subdomain attempt elapsed_ms).status_code = some c →
      (check_subdomain subdomain attempt elapsed_ms).up = decide (c < 500)) ∧
    ((check_subdomain subdomain attempt elapsed_ms).up = true →
      ∃ c, (check_subdomain subdomain attempt elapsed_ms).status_code = some c ∧ c < 500) := by
  cases h1 : attempt "https" <;> cases h2 : attempt "http" <;>
    refine ⟨fun c hc => ?_, fun hu => ?_⟩ <;>
    simp_all [check_subdomain, tryProtocol, initResult]

/-- Witness for C7: a 404 response probes as up, with its status code
recorded and below 500. -/
theorem probe_up_iff_status_lt_500_witness :
    (check_subdomain "portal.bettergov.ph"
        (fun _ => AttemptOutcome.response 404 [] (some "")) (fun _ => 120)).up = true ∧
    ∃ c, (check_subdomain "portal.bettergov.ph"
        (fun _ => AttemptOutcome.response 404 [] (some "")) (fun _ => 120)).status_code =
          some c ∧ c < 500 :=
  ⟨((probe_up_iff_status_lt_500 "portal.bettergov.ph"
      (fun _ => AttemptOutcome.response 404 [] (some "")) (fun _ => 120)).1 404
      (by decide)).trans (by decide),
   (probe_up_iff_status_lt_500 "portal.bettergov.ph"
      (fun _ => AttemptOutcome.response 404 [] (some "")) (fun _ => 120)).2 (by decide)⟩

/-- C8: when both the HTTPS and the HTTP attempt end in a timeout or a
connection error, the emitted record has `up = false`, null status code and
response time, and a non-null classified `error_message` (the one from the
last failed attempt). -/
theorem probe_both_failed (subdomain : String)
    (attempt : String → AttemptOutcome) (elapsed_ms : String → Nat)
    (h1 : (∃ m, attempt "https" = AttemptOutcome.connError m) ∨
      attempt "https" = AttemptOutcome.timeoutErr)
    (h2 : (∃ m, attempt "http" = AttemptOutcome.connError m) ∨
      attempt "http" = AttemptOutcome.timeoutErr) :
    (check_subdomain subdomain attempt elapsed_ms).up = false ∧
    (check_subdomain subdomain attempt elapsed_ms).status_code = none ∧
    (check_subdomain subdomain attempt elapsed_ms).response_time_ms = none ∧
    ∃ msg, (check_subdomain subdomain attempt elapsed_ms).error_message = some msg ∧
      (msg = "Timeout" ∨ ∃ m, msg = "Connection failed: " ++ m) := by
  rcases h1 with ⟨m1, e1⟩ | e1 <;> rcases h2 with ⟨m2, e2⟩ | e2 <;>
    simp [check_subdomain, tryProtocol, initResult, e1, e2]

/-- Witness for C8: both protocols timing out yields the down record with
the classified `Timeout` reason. -/
theorem probe_both_failed_witness :
    (check_subdomain "portal.bettergov.ph"
        (fun _ => AttemptOutcome.timeoutErr) (fun _ => 0)).up = false ∧
    (check_subdomain "portal.bettergov.ph"
        (fun _ => AttemptOutcome.timeoutErr) (fun _ => 0)).status_code = none ∧
    (check_subdomain "portal.bettergov.ph"
        (fun _ => AttemptOutcome.timeoutErr) (fun _ => 0)).response_time_ms = none ∧
    ∃ msg, (check_subdomain "portal.bettergov.ph"
        (fun _ => AttemptOutcome.timeoutErr) (fun _ => 0)).error_message = some msg ∧
      (msg = "Timeout" ∨ ∃ m, msg = "Connection failed: " ++ m) :=
  probe_both_failed "portal.bettergov.ph" (fun _ => AttemptOutcome.timeoutErr)
    (fun _ => 0) (Or.inr rfl) (Or.inr rfl)

end OpenMonitoring
